import Mathlib

/-!
Verification of the parallel workflow graph in `rats/parallel.py`.

The application layer (node bodies, graph shape) is embedded directly from
the source.  The execution engine (superstep scheduler, interrupt/resume
controller, delta commit) is the `langgraph` library, which is not part of
this repository's sources; those parts are modelled from the spec
(sections 3, 4.2, 4.3 and 4.5) and are marked `Modelled from the spec:`
in their doc comments.

External collaborators (the web-search tool and the LLM) are injected as
function parameters, following the spec's design note that they are
collaborator interfaces, not engine behaviour.
-/

/-- A document; the engine only ever sees its `page_content` string. -/
abbrev Doc := String

/-- A chat message; the engine only stores the generated content string. -/
abbrev Msg := String

/-- The shared graph state, from `class GraphState(TypedDict)`.
`question` is always present (it is the required input channel, set before
the first node runs and read with `state["question"]`); the remaining
channels may be unset, which the source reads with `state.get(...)` or, for
`backstory`, with a direct indexing that fails when the key is absent. -/
structure GraphState where
  question : String
  documents : Option (List Doc)
  backstory : Option String
  messages : Option (List Msg)
  docs_approval : Option Bool
  backstory_approval : Option Bool
deriving DecidableEq, Repr

/-- A partial state update returned by a node: `none` means the channel is
absent from the returned dict and is left untouched on commit. -/
structure StateDelta where
  question : Option String := none
  documents : Option (List Doc) := none
  backstory : Option String := none
  messages : Option (List Msg) := none
  docs_approval : Option Bool := none
  backstory_approval : Option Bool := none
deriving DecidableEq, Repr

/-- Overwrite reducer for one channel: a present delta value replaces the
current one, an absent one keeps it.  All six channels of `GraphState` are
declared without a reducer annotation, so all use overwrite. -/
def ovr (d : Option α) (cur : Option α) : Option α :=
  match d with
  | some v => some v
  | none => cur

/-- Modelled from the spec: `apply` of the State Store (§4.2) for a single
delta — channel-wise overwrite, keys absent from the delta left untouched. -/
def applyDelta (s : GraphState) (d : StateDelta) : GraphState where
  question := d.question.getD s.question
  documents := ovr d.documents s.documents
  backstory := ovr d.backstory s.backstory
  messages := ovr d.messages s.messages
  docs_approval := ovr d.docs_approval s.docs_approval
  backstory_approval := ovr d.backstory_approval s.backstory_approval

/-- The node names of `make_graph`. -/
inductive Node where
  | trim
  | search
  | confirm_docs
  | pruning
  | gen_backstory
  | confirm_backstory
  | answer
deriving DecidableEq, Repr

/-- Modelled from the spec: `apply(deltas)` over an ordered sequence of
per-node deltas (§4.2), applied in the given order. -/
def applyDeltas (s : GraphState) (ds : List (Node × StateDelta)) : GraphState :=
  ds.foldl (fun acc p => applyDelta acc p.2) s

/-- Python's whitespace class for `str.strip()` (ASCII part): space, tab,
newline, carriage return, vertical tab, form feed. -/
def pyIsSpace (c : Char) : Bool :=
  c = ' ' || c = '\t' || c = '\n' || c = '\x0d' || c = '\x0b' || c = '\x0c'

/-- Python's `str.strip()`: drop leading and trailing whitespace. -/
def pyStrip (s : String) : String :=
  String.mk (((s.data.dropWhile pyIsSpace).reverse.dropWhile pyIsSpace).reverse)

/-- The `trim` node: `question = state["question"].strip()`, returned as the
single-key delta `{"question": question}`. -/
def trim (state : GraphState) : StateDelta :=
  { question := some (pyStrip state.question) }

/-- The `search` node.  The external web-search tool is injected as the list
`webDocs` of fetched page contents.  The Python body aliases the state's
list (`documents = state.get("documents", [])`) and appends to it in place,
so when the `documents` channel is present the passed-in state is mutated;
the embedding returns the post-invocation state together with the delta to
make that side effect explicit. -/
def search (webDocs : List Doc) (state : GraphState) : GraphState × StateDelta :=
  let documents := state.documents.getD []
  let appended := documents ++ webDocs
  let stateAfter :=
    match state.documents with
    | some _ => { state with documents := some appended }
    | none => state
  (stateAfter, { documents := some appended })

/-- Python's `str.lower()` (ASCII part): lower-case every character. -/
def pyLower (s : String) : String :=
  String.mk (s.data.map Char.toLower)

/-- The decision of `confirm_docs` once the interrupt is resolved to the
string `v`: approval is `False` unless `v.lower()` is `"y"` or `"yes"`. -/
def confirm_docs_resolved (v : String) : StateDelta :=
  if pyLower v ≠ "y" ∧ pyLower v ≠ "yes" then { docs_approval := some false }
  else { docs_approval := some true }

/-- The decision of `confirm_backstory` once the interrupt is resolved to
the string `v`: same comparison as `confirm_docs`, on the other channel. -/
def confirm_backstory_resolved (v : String) : StateDelta :=
  if pyLower v ≠ "y" ∧ pyLower v ≠ "yes" then { backstory_approval := some false }
  else { backstory_approval := some true }

/-- The `pruning` node: drop the last document iff more than two documents
are present and `docs_approval` (defaulting to `True` when unset) is false. -/
def pruning (state : GraphState) : StateDelta :=
  let documents := state.documents.getD []
  let approval := state.docs_approval.getD true
  if documents.length > 2 ∧ approval = false then
    { documents := some documents.dropLast }
  else
    { documents := some documents }

/-- The persona prompt of `gen_backstory` after `.format(question=...)`. -/
def backstoryPrompt (question : String) : String :=
  "You are an expert improv comedian and actor. \n    Based on the question asked, create an engaging persona you believe will entertain the user.\n    Create a short backstory, less than 3 sentences. Speak in the first person, taking on the role.\n\n    Question: "
    ++ question ++ "\n\n    Backstory:"

/-- The `gen_backstory` node; the LLM is injected as `llmContent`, mapping
the formatted prompt to the generation's content. -/
def gen_backstory (llmContent : String → String) (state : GraphState) : StateDelta :=
  { backstory := some (llmContent (backstoryPrompt state.question)) }

/-- The backstory-flavoured prompt of `answer` after `.format(...)`. -/
def eccentricPrompt (question backstory context : String) : String :=
  "You are an eccentric professor with an interesting past. \n        Your job is to summarize the answer to a question based on relevant background context.\n        You must weave in your backstory wherever possible.\n\n        Question: "
    ++ question ++ " \n\n        Backstory: " ++ backstory ++ "\n\n        Context: "
    ++ context ++ "\n\n        Answer:"

/-- The plain prompt of `answer` after `.format(...)`. -/
def plainPrompt (question context : String) : String :=
  "You are a professor and expert in explaining complex topics in a way that is easy to understand. \n        Your job is to summarize the answer to a question based on relevant background context. \n\n        Question: "
    ++ question ++ " \n\n        Context: " ++ context ++ "\n\n        Answer:"

/-- The `answer` node; the LLM is injected as `llmContent`.  When
`backstory_approval` (defaulting to `False` when unset) is true the body
reads `state["backstory"]`, which raises a `KeyError` when the channel is
absent — embedded as the `none` result. -/
def answer (llmContent : String → String) (state : GraphState) : Option StateDelta :=
  let question := state.question
  let documents := state.documents.getD []
  let backstory_approval := state.backstory_approval.getD false
  if backstory_approval then
    match state.backstory with
    | none => none
    | some backstory =>
      let formatted :=
        eccentricPrompt question backstory (String.intercalate "\n" documents)
      some { messages := some [llmContent formatted] }
  else
    let formatted := plainPrompt question (String.intercalate "\n" documents)
    some { messages := some [llmContent formatted] }

/-- The edge list of `make_graph`, omitting the `START → trim` entry edge
(represented by the initial frontier) and the `answer → END` terminal edge
(`answer` has no successor node). -/
def edges : List (Node × Node) :=
  [(.trim, .search), (.trim, .gen_backstory),
   (.search, .confirm_docs), (.confirm_docs, .pruning), (.pruning, .answer),
   (.gen_backstory, .confirm_backstory), (.confirm_backstory, .answer)]

/-- Execution mode of each node: only `answer` is added with `defer=True`. -/
def deferred (n : Node) : Bool :=
  match n with
  | .answer => true
  | _ => false

/-- In-edge sources of a node. -/
def sourcesOf (n : Node) : List Node :=
  edges.filterMap (fun e => if e.2 = n then some e.1 else none)

/-- Successors of a node. -/
def successorsOf (n : Node) : List Node :=
  edges.filterMap (fun e => if e.1 = n then some e.2 else none)

/-- Modelled from the spec: scheduler bookkeeping of §4.3 — the set of
completed nodes and the current frontier. -/
structure SchedState where
  completed : List Node
  frontier : List Node
deriving DecidableEq, Repr

/-- Modelled from the spec: a frontier node is ready when it is normal, or
deferred with every in-edge source already completed (§4.3 step 3). -/
def isReady (completed : List Node) (n : Node) : Bool :=
  !deferred n || (sourcesOf n).all (fun s => completed.contains s)

/-- Modelled from the spec: the `ready` partition of the frontier. -/
def readySet (st : SchedState) : List Node :=
  st.frontier.filter (isReady st.completed)

/-- Modelled from the spec: the `blocked` partition of the frontier. -/
def blockedSet (st : SchedState) : List Node :=
  st.frontier.filter (fun n => !isReady st.completed n)

/-- Modelled from the spec: one committed superstep of the scheduler (§4.3
step 6) — ready nodes move to `completed`, the new frontier is the set of
successors of the newly completed nodes together with still-blocked
deferred nodes. -/
def stepSched (st : SchedState) : SchedState :=
  let ready := readySet st
  { completed := st.completed ++ ready
    frontier := ((ready.flatMap successorsOf) ++ blockedSet st).dedup }

/-- Modelled from the spec: initial scheduler state of a fresh run —
`frontier = {entryNode}` (the target of the `START` edge), nothing
completed. -/
def schedStart : SchedState :=
  { completed := [], frontier := [.trim] }

/-- The scheduler state after `k` committed supersteps of a fresh,
uninterrupted run of the graph of `make_graph`. -/
def trace (k : Nat) : SchedState :=
  Nat.iterate stepSched k schedStart

/-- Modelled from the spec: the result of one node invocation (§6 and §9) —
either a completed delta or a suspension carrying an interrupt payload. -/
inductive NodeResult where
  | completed (d : StateDelta)
  | suspended (payload : String)
deriving DecidableEq, Repr

/-- The `confirm_docs` node body under the interrupt protocol, modelled
from the spec (§4.5): with no resume value supplied the `interrupt` call
suspends with the node's payload; with a resume value `v` it returns `v`
and the body computes its delta from it. -/
def confirm_docs_body (resume : Option String) : NodeResult :=
  match resume with
  | none => .suspended "Please confirm that the documents look relevant. (Y/n)"
  | some v => .completed (confirm_docs_resolved v)

/-- The `confirm_backstory` node body under the interrupt protocol,
modelled from the spec (§4.5), analogous to `confirm_docs_body`. -/
def confirm_backstory_body (resume : Option String) : NodeResult :=
  match resume with
  | none => .suspended "Do you find this persona interesting? (Y/n)"
  | some v => .completed (confirm_backstory_resolved v)

/-- Modelled from the spec: a ResumeCommand is a mapping from interrupt id
to resume value (§3); lookup of the value for one interrupt id. -/
def resolveResume (resumeMap : List (String × String)) (interruptId : String) : Option String :=
  List.lookup interruptId resumeMap

/-- Modelled from the spec: re-invoking a suspended `confirm_docs` under a
ResumeCommand — the value keyed by the node's interrupt id is injected as
the suspension-resolution input (§4.3 step 7). -/
def resume_confirm_docs (resumeMap : List (String × String)) (interruptId : String) : NodeResult :=
  confirm_docs_body (resolveResume resumeMap interruptId)

/-- Modelled from the spec: re-invoking a suspended `confirm_backstory`
under a ResumeCommand — the value keyed by the node's interrupt id is
injected as the suspension-resolution input (§4.3 step 7). -/
def resume_confirm_backstory (resumeMap : List (String × String)) (interruptId : String) : NodeResult :=
  confirm_backstory_body (resolveResume resumeMap interruptId)

/-- The interrupts raised in one superstep, given each invoked node's
result. -/
def raisedInterrupts (results : List (Node × NodeResult)) : List (Node × String) :=
  results.filterMap fun p =>
    match p.2 with
    | .suspended payload => some (p.1, payload)
    | .completed _ => none

/-- The deltas collected from the completed invocations of one superstep,
in invocation order. -/
def collectedDeltas (results : List (Node × NodeResult)) : List (Node × StateDelta) :=
  results.filterMap fun p =>
    match p.2 with
    | .completed d => some (p.1, d)
    | .suspended _ => none

/-- Modelled from the spec: the outcome of one superstep — the persisted
state, the scheduler bookkeeping, and the interrupts surfaced to the
caller. -/
structure SuperstepOutcome where
  state : GraphState
  sched : SchedState
  surfaced : List (Node × String)
deriving Repr

/-- Modelled from the spec: steps 5 and 6 of the superstep loop (§4.3).
If any invocation suspended, no delta is applied, the scheduler state is
unchanged, and all raised interrupts are surfaced; otherwise all deltas
are committed and the frontier advances. -/
def runSuperstep (s : GraphState) (st : SchedState)
    (results : List (Node × NodeResult)) : SuperstepOutcome :=
  let ints := raisedInterrupts results
  if ints.isEmpty then
    { state := applyDeltas s (collectedDeltas results)
      sched := stepSched st
      surfaced := [] }
  else
    { state := s, sched := st, surfaced := ints }

/-- Commit the result of a single node invocation to a state: a completed
delta is applied, a suspension leaves the state untouched. -/
def commitResult (s : GraphState) (r : NodeResult) : GraphState :=
  match r with
  | .completed d => applyDelta s d
  | .suspended _ => s

/-- A concrete state with three documents and a rejected docs approval. -/
def sThreeDocsNo : GraphState :=
  { question := "q", documents := some ["a", "b", "c"], backstory := none,
    messages := none, docs_approval := some false, backstory_approval := none }

/-- A concrete state with three documents and an accepted docs approval. -/
def sThreeDocsYes : GraphState :=
  { question := "q", documents := some ["a", "b", "c"], backstory := none,
    messages := none, docs_approval := some true, backstory_approval := none }

/-- A concrete `answer` delta: only the `messages` channel is written. -/
def dAnswerOnly : StateDelta :=
  { messages := some ["ans"] }

/-- The empty delta: no channel is written. -/
def dEmpty : StateDelta := {}

/-- The pre-superstep state of the superstep in which both confirmation
nodes run. -/
def sMid : GraphState :=
  { question := "q", documents := some ["d1", "d2", "d3"], backstory := some "b",
    messages := some [], docs_approval := none, backstory_approval := none }

/-- The scheduler bookkeeping of the superstep in which both confirmation
nodes run. -/
def stMid : SchedState :=
  { completed := [.trim, .search, .gen_backstory],
    frontier := [.confirm_docs, .confirm_backstory] }

/-- The invocation results of the superstep in which both confirmation
nodes run with no resume value: both suspend. -/
def resultsMid : List (Node × NodeResult) :=
  [(Node.confirm_docs, confirm_docs_body none),
   (Node.confirm_backstory, confirm_backstory_body none)]

lemma dropWhile_head_false {p : α → Bool} {l : List α} {a : α} {t : List α}
    (h : l.dropWhile p = a :: t) : p a = false := by
  have hh := List.head?_dropWhile_not p l
  rw [h] at hh
  simpa using hh

lemma dropWhile_dropWhile (p : α → Bool) (l : List α) :
    (l.dropWhile p).dropWhile p = l.dropWhile p := by
  cases h : l.dropWhile p with
  | nil => simp
  | cons a t =>
    have ha : p a = false := dropWhile_head_false h
    simp [List.dropWhile_cons, ha]

lemma stripChars_idem (p : α → Bool) (l : List α) :
    ((((((l.dropWhile p).reverse.dropWhile p).reverse).dropWhile p).reverse).dropWhile p).reverse
      = ((l.dropWhile p).reverse.dropWhile p).reverse := by
  set m := l.dropWhile p with hm
  set r := m.reverse.dropWhile p with hr
  have h1 : r.reverse.dropWhile p = r.reverse := by
    cases hrr : r.reverse with
    | nil => simp
    | cons a u =>
      have hsplit : m.reverse.takeWhile p ++ r = m.reverse := by
        rw [hr]; exact List.takeWhile_append_dropWhile p m.reverse
      have hmeq : l.dropWhile p = a :: (u ++ (m.reverse.takeWhile p).reverse) := by
        rw [← hm]
        calc m = m.reverse.reverse := (List.reverse_reverse m).symm
          _ = (m.reverse.takeWhile p ++ r).reverse := by rw [hsplit]
          _ = r.reverse ++ (m.reverse.takeWhile p).reverse := by rw [List.reverse_append]
          _ = a :: (u ++ (m.reverse.takeWhile p).reverse) := by rw [hrr]; rfl
      have hpa : p a = false := dropWhile_head_false hmeq
      exact List.dropWhile_cons_of_neg (by simp [hpa])
  have h2 : r.dropWhile p = r := by
    rw [hr]; exact dropWhile_dropWhile p m.reverse
  rw [h1, List.reverse_reverse, h2]

lemma pyStrip_idem (s : String) : pyStrip (pyStrip s) = pyStrip s :=
  congrArg String.mk (stripChars_idem pyIsSpace s.data)

lemma trace_add_five (m : Nat) : trace (5 + m) = trace 5 := by
  induction m with
  | zero => rfl
  | succ n ih =>
    have hstep : trace (5 + (n + 1)) = stepSched (trace (5 + n)) := by
      show stepSched^[5 + (n + 1)] schedStart = _
      rw [show 5 + (n + 1) = (5 + n) + 1 from rfl, Function.iterate_succ_apply']
      rfl
    rw [hstep, ih]
    decide

/-- Claim C1: in the graph built by `make_graph`, the deferred node
`answer` is never ready until both of its in-edge sources `pruning` and
`confirm_backstory` are completed (for every scheduler state), and in the
uninterrupted run of the graph `answer` is ready in exactly one superstep,
after both fan-out branches have fully completed. -/
theorem claim_C1_answer_barrier :
    (∀ st : SchedState, Node.answer ∈ readySet st →
      Node.pruning ∈ st.completed ∧ Node.confirm_backstory ∈ st.completed)
    ∧ (∀ k : Nat, Node.answer ∈ readySet (trace k) ↔ k = 4) := by
  constructor
  · intro st h
    obtain ⟨-, hready⟩ := List.mem_filter.mp h
    simp only [isReady, deferred, sourcesOf, edges] at hready
    simp at hready
    exact ⟨hready.1, hready.2⟩
  · intro k
    constructor
    · intro h
      by_contra hk
      rcases Nat.lt_or_ge k 5 with hlt | hge
      · interval_cases k <;> revert h <;> simp_all <;> decide
      · obtain ⟨m, rfl⟩ : ∃ m, k = 5 + m := ⟨k - 5, by omega⟩
        rw [trace_add_five] at h
        revert h
        decide
    · intro h
      subst h
      decide

/-- Witness for C1: in the concrete run, at superstep index 4 `answer` is
ready and, by the barrier theorem, `pruning` and `confirm_backstory` are
already completed. -/
theorem claim_C1_witness :
    Node.answer ∈ readySet (trace 4)
    ∧ Node.pruning ∈ (trace 4).completed
    ∧ Node.confirm_backstory ∈ (trace 4).completed := by
  refine ⟨by decide, ?_, ?_⟩
  · exact (claim_C1_answer_barrier.1 (trace 4) (by decide)).1
  · exact (claim_C1_answer_barrier.1 (trace 4) (by decide)).2

/-- Claim C2 is false of the code: the body of `search` aliases the
state's `documents` list and appends the fetched results to it in place,
so invoking `search` on a state whose `documents` channel is non-empty
mutates the passed-in state.  This theorem evaluates the code at the
failing input: a state holding one document and one fetched result. -/
theorem claim_C2_search_mutates_state :
    (search ["w"]
      { question := "q", documents := some ["d1"], backstory := none,
        messages := none, docs_approval := none, backstory_approval := none }).1
      ≠ { question := "q", documents := some ["d1"], backstory := none,
          messages := none, docs_approval := none, backstory_approval := none }
    ∧ (search ["w"]
      { question := "q", documents := some ["d1"], backstory := none,
        messages := none, docs_approval := none, backstory_approval := none }).1.documents
      = some ["d1", "w"] := by
  constructor
  · decide
  · rfl

/-- Claim C3: `pruning` removes exactly the last document when more than
two documents are present and `docs_approval` is false (so the length
drops by one); in every other state it returns the documents unchanged;
and the only later node, `answer`, returns a delta without the
`documents` key, so committing it never re-adds the removed item. -/
theorem claim_C3_pruning_correct :
    (∀ (s : GraphState) (docs : List Doc),
      s.documents = some docs → docs.length > 2 → s.docs_approval = some false →
      (pruning s).documents = some docs.dropLast
      ∧ docs.dropLast.length = docs.length - 1)
    ∧ (∀ s : GraphState,
      (¬ s.docs_approval = some false ∨ (s.documents.getD []).length ≤ 2) →
      (pruning s).documents = some (s.documents.getD []))
    ∧ (∀ (s : GraphState) (llm : String → String) (d : StateDelta),
      answer llm s = some d →
      d.documents = none ∧ (applyDelta s d).documents = s.documents) := by
  refine ⟨?_, ?_, ?_⟩
  · intro s docs h1 h2 h3
    constructor
    · simp [pruning, h1, h3, h2]
    · exact List.length_dropLast docs
  · intro s h
    rcases h with h | h
    · cases hd : s.docs_approval with
      | none => simp [pruning, hd]
      | some b =>
        cases b with
        | false => exact absurd hd h
        | true => simp [pruning, hd]
    · have hnc : ¬ ((s.documents.getD []).length > 2 ∧ s.docs_approval.getD true = false) := by
        intro hc
        omega
      simp [pruning, hnc]
  · intro s llm d h
    simp only [answer] at h
    split at h
    · split at h
      · exact absurd h (by simp)
      · obtain rfl := Option.some.inj h
        exact ⟨rfl, rfl⟩
    · obtain rfl := Option.some.inj h
      exact ⟨rfl, rfl⟩


/-- Witness for C3: a state with three documents and a false approval is
pruned to two; with approval set to true the documents stay; and a
committed `answer` delta leaves `documents` untouched. -/
theorem claim_C3_witness :
    (pruning sThreeDocsNo).documents = some (["a", "b", "c"].dropLast)
    ∧ (["a", "b", "c"] : List Doc).dropLast.length = (["a", "b", "c"] : List Doc).length - 1
    ∧ (pruning sThreeDocsYes).documents = some (sThreeDocsYes.documents.getD [])
    ∧ dAnswerOnly.documents = none
    ∧ (applyDelta sThreeDocsNo dAnswerOnly).documents = sThreeDocsNo.documents := by
  refine ⟨?_, ?_, ?_, ?_, ?_⟩
  · exact (claim_C3_pruning_correct.1 sThreeDocsNo ["a", "b", "c"] rfl (by decide) rfl).1
  · exact (claim_C3_pruning_correct.1 sThreeDocsNo ["a", "b", "c"] rfl (by decide) rfl).2
  · exact claim_C3_pruning_correct.2.1 sThreeDocsYes (Or.inl (by decide))
  · exact (claim_C3_pruning_correct.2.2 sThreeDocsNo (fun _ => "ans") dAnswerOnly rfl).1
  · exact (claim_C3_pruning_correct.2.2 sThreeDocsNo (fun _ => "ans") dAnswerOnly rfl).2

/-- Claim C4: the approval defaults are asymmetric — with `docs_approval`
absent, `pruning` behaves exactly as with approval `true` and removes
nothing, while with `backstory_approval` absent, `answer` behaves exactly
as with approval `false` and builds the plain prompt without the
backstory. -/
theorem claim_C4_asymmetric_defaults :
    (∀ s : GraphState,
      pruning { s with docs_approval := none } = pruning { s with docs_approval := some true }
      ∧ (pruning { s with docs_approval := none }).documents = some (s.documents.getD []))
    ∧ (∀ (s : GraphState) (llm : String → String),
      answer llm { s with backstory_approval := none }
        = answer llm { s with backstory_approval := some false }
      ∧ answer llm { s with backstory_approval := none }
          = some { messages := some [llm (plainPrompt s.question (String.intercalate "\n" (s.documents.getD [])))] }) := by
  constructor
  · intro s
    constructor
    · simp [pruning]
    · simp [pruning]
  · intro s llm
    exact ⟨rfl, rfl⟩

/-- Claim C5: resume transparency for both confirmation nodes — resuming
`confirm_docs` or `confirm_backstory` with a value `v` keyed by the
matching interrupt id yields exactly the completed delta, and hence
exactly the committed state, that a direct run resolving the interrupt to
`v` produces; resolving `confirm_docs` to `"no"` yields the delta setting
`docs_approval` to false. -/
theorem claim_C5_resume_transparency :
    ∀ (v interruptId : String) (s : GraphState),
      resume_confirm_docs [(interruptId, v)] interruptId
        = .completed (confirm_docs_resolved v)
      ∧ confirm_docs_body (some v) = .completed (confirm_docs_resolved v)
      ∧ commitResult s (resume_confirm_docs [(interruptId, v)] interruptId)
          = commitResult s (confirm_docs_body (some v))
      ∧ resume_confirm_backstory [(interruptId, v)] interruptId
        = .completed (confirm_backstory_resolved v)
      ∧ confirm_backstory_body (some v) = .completed (confirm_backstory_resolved v)
      ∧ commitResult s (resume_confirm_backstory [(interruptId, v)] interruptId)
          = commitResult s (confirm_backstory_body (some v))
      ∧ confirm_docs_resolved "no" = { docs_approval := some false } := by
  intro v interruptId s
  have hres : resolveResume [(interruptId, v)] interruptId = some v := by
    simp [resolveResume, List.lookup]
  refine ⟨?_, rfl, ?_, ?_, rfl, ?_, by decide⟩
  · simp [resume_confirm_docs, hres, confirm_docs_body]
  · simp [resume_confirm_docs, hres]
  · simp [resume_confirm_backstory, hres, confirm_backstory_body]
  · simp [resume_confirm_backstory, hres]

/-- Claim C6: the concurrently running branch nodes write disjoint
channels, so committing their deltas in either order yields an identical
state — both for the superstep running `search` with `gen_backstory` and
for the superstep running `confirm_docs` with `confirm_backstory`. -/
theorem claim_C6_commit_order_irrelevant :
    (∀ (s : GraphState) (webDocs : List Doc) (llm : String → String),
      applyDeltas s
        [(Node.search, (search webDocs s).2), (Node.gen_backstory, gen_backstory llm s)]
      = applyDeltas s
        [(Node.gen_backstory, gen_backstory llm s), (Node.search, (search webDocs s).2)])
    ∧ (∀ (s : GraphState) (v w : String),
      applyDeltas s
        [(Node.confirm_docs, confirm_docs_resolved v),
         (Node.confirm_backstory, confirm_backstory_resolved w)]
      = applyDeltas s
        [(Node.confirm_backstory, confirm_backstory_resolved w),
         (Node.confirm_docs, confirm_docs_resolved v)]) := by
  constructor
  · intro s webDocs llm
    rfl
  · intro s v w
    by_cases h1 : pyLower v ≠ "y" ∧ pyLower v ≠ "yes" <;>
      by_cases h2 : pyLower w ≠ "y" ∧ pyLower w ≠ "yes" <;>
        simp [confirm_docs_resolved, confirm_backstory_resolved, h1, h2, applyDeltas,
          applyDelta, ovr]

/-- Claim C7: a `StateDelta` is partial — every channel absent from a
delta keeps its prior value after commit; in particular the delta of
`trim` carries only the `question` key and committing it leaves the five
other channels unchanged. -/
theorem claim_C7_delta_partiality :
    (∀ (s : GraphState) (d : StateDelta),
      (d.question = none → (applyDelta s d).question = s.question)
      ∧ (d.documents = none → (applyDelta s d).documents = s.documents)
      ∧ (d.backstory = none → (applyDelta s d).backstory = s.backstory)
      ∧ (d.messages = none → (applyDelta s d).messages = s.messages)
      ∧ (d.docs_approval = none → (applyDelta s d).docs_approval = s.docs_approval)
      ∧ (d.backstory_approval = none →
          (applyDelta s d).backstory_approval = s.backstory_approval))
    ∧ (∀ s : GraphState,
      (trim s).documents = none ∧ (trim s).backstory = none ∧ (trim s).messages = none
      ∧ (trim s).docs_approval = none ∧ (trim s).backstory_approval = none
      ∧ (applyDelta s (trim s)).documents = s.documents
      ∧ (applyDelta s (trim s)).backstory = s.backstory
      ∧ (applyDelta s (trim s)).messages = s.messages
      ∧ (applyDelta s (trim s)).docs_approval = s.docs_approval
      ∧ (applyDelta s (trim s)).backstory_approval = s.backstory_approval) := by
  constructor
  · intro s d
    refine ⟨fun h => ?_, fun h => ?_, fun h => ?_, fun h => ?_, fun h => ?_, fun h => ?_⟩
      <;> simp [applyDelta, ovr, h]
  · intro s
    exact ⟨rfl, rfl, rfl, rfl, rfl, rfl, rfl, rfl, rfl, rfl⟩

/-- Witness for C7: committing the empty delta to a concrete state leaves
every channel unchanged. -/
theorem claim_C7_witness :
    (applyDelta sThreeDocsNo dEmpty).question = sThreeDocsNo.question
    ∧ (applyDelta sThreeDocsNo dEmpty).documents = sThreeDocsNo.documents
    ∧ (applyDelta sThreeDocsNo dEmpty).backstory = sThreeDocsNo.backstory
    ∧ (applyDelta sThreeDocsNo dEmpty).messages = sThreeDocsNo.messages
    ∧ (applyDelta sThreeDocsNo dEmpty).docs_approval = sThreeDocsNo.docs_approval
    ∧ (applyDelta sThreeDocsNo dEmpty).backstory_approval = sThreeDocsNo.backstory_approval := by
  refine ⟨?_, ?_, ?_, ?_, ?_, ?_⟩
  · exact (claim_C7_delta_partiality.1 sThreeDocsNo dEmpty).1 rfl
  · exact (claim_C7_delta_partiality.1 sThreeDocsNo dEmpty).2.1 rfl
  · exact (claim_C7_delta_partiality.1 sThreeDocsNo dEmpty).2.2.1 rfl
  · exact (claim_C7_delta_partiality.1 sThreeDocsNo dEmpty).2.2.2.1 rfl
  · exact (claim_C7_delta_partiality.1 sThreeDocsNo dEmpty).2.2.2.2.1 rfl
  · exact (claim_C7_delta_partiality.1 sThreeDocsNo dEmpty).2.2.2.2.2 rfl

/-- Claim C8: suspension atomicity — when any invocation of a superstep
suspends, no delta of that superstep is applied, the persisted state and
the scheduler bookkeeping (frontier and completed set) are unchanged, and
every interrupt raised in the superstep is surfaced to the caller. -/
theorem claim_C8_suspension_atomicity :
    ∀ (s : GraphState) (st : SchedState) (results : List (Node × NodeResult)),
      raisedInterrupts results ≠ [] →
      (runSuperstep s st results).state = s
      ∧ (runSuperstep s st results).sched = st
      ∧ (runSuperstep s st results).surfaced = raisedInterrupts results := by
  intro s st results h
  have hne : (raisedInterrupts results).isEmpty = false := by
    simpa [List.isEmpty_iff] using h
  simp [runSuperstep, hne]

/-- Witness for C8: in the superstep where `confirm_docs` and
`confirm_backstory` both suspend (no resume value supplied), the state
and scheduler bookkeeping are preserved. -/
theorem claim_C8_witness :
    raisedInterrupts resultsMid ≠ []
    ∧ (runSuperstep sMid stMid resultsMid).state = sMid
    ∧ (runSuperstep sMid stMid resultsMid).sched = stMid := by
  refine ⟨by decide, ?_, ?_⟩
  · exact (claim_C8_suspension_atomicity sMid stMid resultsMid (by decide)).1
  · exact (claim_C8_suspension_atomicity sMid stMid resultsMid (by decide)).2.1

/-- Claim C9: the confirmation nodes approve if and only if the
lower-cased resume value is `"y"` or `"yes"`; every other string,
including the empty string, yields approval `false`. -/
theorem claim_C9_case_insensitive_yes :
    ∀ v : String,
      ((confirm_docs_resolved v).docs_approval = some true
        ↔ (pyLower v = "y" ∨ pyLower v = "yes"))
      ∧ ((confirm_docs_resolved v).docs_approval = some false
        ↔ ¬(pyLower v = "y" ∨ pyLower v = "yes"))
      ∧ ((confirm_backstory_resolved v).backstory_approval = some true
        ↔ (pyLower v = "y" ∨ pyLower v = "yes"))
      ∧ ((confirm_backstory_resolved v).backstory_approval = some false
        ↔ ¬(pyLower v = "y" ∨ pyLower v = "yes"))
      ∧ (confirm_docs_resolved "").docs_approval = some false
      ∧ (confirm_backstory_resolved "").backstory_approval = some false := by
  intro v
  refine ⟨?_, ?_, ?_, ?_, by decide, by decide⟩ <;>
    by_cases h1 : pyLower v = "y" <;> by_cases h2 : pyLower v = "yes" <;>
      simp_all [confirm_docs_resolved, confirm_backstory_resolved]

/-- Claim C10: `trim` returns the single-key delta holding the
whitespace-stripped question, and it is idempotent — running `trim` on
the state obtained by committing its own delta returns the same delta. -/
theorem claim_C10_trim_idempotent :
    ∀ s : GraphState,
      trim s = { question := some (pyStrip s.question) }
      ∧ trim (applyDelta s (trim s)) = trim s := by
  intro s
  refine ⟨rfl, ?_⟩
  simp only [trim, applyDelta, Option.getD]
  rw [pyStrip_idem]
